import Mathlib

/-
  Verification of the turn-resolution and state-integrity engine of the
  `aidm` repository (src/adventure/core/action.py and
  src/adventure/core/state_validator.py), as a shallow embedding.

  JSON dictionaries are embedded as Lean structures whose fields are
  `Option`-typed: `none` models an absent key.  Python string operations
  used by the code (`.lower()`, substring `in`) are embedded over the
  character lists of Lean strings; all strings handled by the validator
  keyword machinery are ASCII, where `lower` agrees with Python.
  Oracle (LLM) calls and dice randomness are injected as explicit
  function parameters, since the core treats them as external
  collaborators.
-/

set_option autoImplicit false

/-- ASCII lower-casing of one character, as Python str.lower does on ASCII. -/
def lowerChar (c : Char) : Char :=
  if 'A' ≤ c ∧ c ≤ 'Z' then Char.ofNat (c.toNat + 32) else c

/-- Python s.lower() (faithful on the ASCII strings the validator handles). -/
def pyLower (s : String) : String :=
  ⟨s.data.map lowerChar⟩

/-- Whether the list `pre` is a prefix of `l` (Boolean, structural). -/
def listPrefixOf : List Char → List Char → Bool
  | [], _ => true
  | _ :: _, [] => false
  | a :: as, b :: bs => a == b && listPrefixOf as bs

/-- Whether `needle` occurs as a contiguous sublist of `hay`. -/
def listContainsSub (needle : List Char) : List Char → Bool
  | [] => listPrefixOf needle []
  | c :: rest => listPrefixOf needle (c :: rest) || listContainsSub needle rest

/-- Python substring test: `needle in hay`. -/
def strContains (hay needle : String) : Bool :=
  listContainsSub needle.data hay.data

/-- Python dict-style guarded update: `if field in new: merged[field] = new[field]`. -/
def updField {α : Type} (new old : Option α) : Option α :=
  match new with
  | some v => some v
  | none => old

/-- Python `'\x27'.join` style separator join. -/
def joinSep (sep : String) : List String → String
  | [] => ""
  | [x] => x
  | x :: y :: xs => x ++ sep ++ joinSep sep (y :: xs)

/-- Distinct elements of a list in first-occurrence order: the key order of a
Python `Counter` / insertion-ordered dict built from the list. -/
def firstOccurrencesAux : List String → List String → List String
  | [], _ => []
  | x :: xs, seen =>
    if seen.contains x then firstOccurrencesAux xs seen
    else x :: firstOccurrencesAux xs (x :: seen)

/-- Distinct elements in first-occurrence order (models Python set contents;
Python set iteration order is hash-dependent, so issue strings that render a
set are modelled with this canonical order). -/
def firstOccurrences (l : List String) : List String :=
  firstOccurrencesAux l []

/-- Python repr of a list of strings, e.g. [\x27Torch\x27, \x27Rope\x27]. -/
def pyListRepr (l : List String) : String :=
  "[" ++ joinSep ", " (l.map (fun s => "\x27" ++ s ++ "\x27")) ++ "]"

/-- Python repr of a set of strings (canonical first-occurrence order). -/
def pySetRepr (l : List String) : String :=
  match firstOccurrences l with
  | [] => "set()"
  | xs => "\x7b" ++ joinSep ", " (xs.map (fun s => "\x27" ++ s ++ "\x27")) ++ "\x7d"

/-- Ability scores dictionary (ability_schema). -/
structure Abilities where
  Strength : Option Int
  Dexterity : Option Int
  Constitution : Option Int
  Intelligence : Option Int
  Wisdom : Option Int
  Charisma : Option Int
deriving DecidableEq

def emptyAbilities : Abilities := ⟨none, none, none, none, none, none⟩

/-- Python truthiness of the Abilities dict: nonempty dict. -/
def abilitiesTruthy (a : Abilities) : Bool :=
  a.Strength.isSome || a.Dexterity.isSome || a.Constitution.isSome ||
  a.Intelligence.isSome || a.Wisdom.isSome || a.Charisma.isSome

/-- Proficiencies dictionary (character_schema). -/
structure Proficiencies where
  Skills : Option (List String)
  Weapons : Option (List String)
  Saving_Throws : Option (List String)
deriving DecidableEq

/-- Python truthiness of the Proficiencies dict: nonempty dict. -/
def proficienciesTruthy (p : Proficiencies) : Bool :=
  p.Skills.isSome || p.Weapons.isSome || p.Saving_Throws.isSome

/-- One spell-slot record (spell_slots_schema item). -/
structure SpellSlot where
  level : Int
  slots : Int
  max_slots : Int
deriving DecidableEq

/-- Magic dictionary (magic_schema). -/
structure Magic where
  Spells_Known : Option (List String)
  Cantrips_Known : Option (List String)
  Spell_Slots : Option (List SpellSlot)
deriving DecidableEq

def emptyMagic : Magic := ⟨none, none, none⟩

/-- One active spell effect (spell_effects_schema item). -/
structure SpellEffect where
  effect : String
  minutes_remaining : Int
deriving DecidableEq

/-- Player / character dictionary (character_schema).  The extra `location`
field is not in the schema but is referenced by the defensive merge's
safe_player_fields list, so a general dict may carry it. -/
structure Player where
  Name : Option String
  Pronouns : Option String
  Race : Option String
  Class : Option String
  Level : Option Int
  XP : Option Int
  HP : Option Int
  Max_HP : Option Int
  Status : Option String
  Gold : Option Int
  AC : Option Int
  Abilities : Option Abilities
  Proficiencies : Option Proficiencies
  Magic : Option Magic
  Spell_Effects : Option (List SpellEffect)
  Inventory : Option (List String)
  location : Option String
deriving DecidableEq

def emptyPlayer : Player :=
  ⟨none, none, none, none, none, none, none, none, none, none, none, none,
   none, none, none, none, none⟩

/-- Python truthiness of the player dict: nonempty dict. -/
def playerTruthy (p : Player) : Bool :=
  p.Name.isSome || p.Pronouns.isSome || p.Race.isSome || p.Class.isSome ||
  p.Level.isSome || p.XP.isSome || p.HP.isSome || p.Max_HP.isSome ||
  p.Status.isSome || p.Gold.isSome || p.AC.isSome || p.Abilities.isSome ||
  p.Proficiencies.isSome || p.Magic.isSome || p.Spell_Effects.isSome ||
  p.Inventory.isSome || p.location.isSome

/-- Monster dictionary (monster_schema); only copied wholesale by the core. -/
structure Monster where
  identifier : String
  description : String
  abilities : Abilities
  AC : Int
  health : Int
  status : String
deriving DecidableEq

/-- Game state dictionary (game_state_schema). -/
structure GameState where
  player : Option Player
  location : Option String
  danger : Option String
  time_of_day : Option String
  sunrise : Option String
  sunset : Option String
  date : Option String
  dark : Option Bool
  monsters : Option (List Monster)
  NPCs : Option (List Player)
deriving DecidableEq

/-- Result of state validation (ValidationResult NamedTuple). -/
structure ValidationResult where
  is_valid : Bool
  issues : List String
deriving DecidableEq

/-- Currency keyword list of StateValidator (_validate_inventory_changes and
_clean_inventory_of_money use the same literal list). -/
def moneyKeywords : List String :=
  ["gold", "coin", "coins", "gold piece", "gold pieces", "copper", "silver",
   "platinum", "gp", "cp", "sp", "pp"]

/-- Whether an inventory entry matches the currency keyword list
(any keyword is a substring of the lower-cased item text). -/
def isMoneyItem (item : String) : Bool :=
  moneyKeywords.any (fun k => strContains (pyLower item) k)

/-- The issue string emitted for a currency-denominated inventory entry. -/
def moneyIssue (item : String) : String :=
  "Money item \x27" ++ item ++
    "\x27 found in inventory - money should be tracked in Gold field only"

/-- Field-specific keyword table of _change_mentioned_in_action. -/
def fieldKeywords (field : String) : List String :=
  if field = "Name" then ["rename", "call", "name"]
  else if field = "Race" then ["transform", "polymorph", "change race"]
  else if field = "Class" then ["multiclass", "change class", "become"]
  else if field = "Pronouns" then ["pronoun", "gender"]
  else []

/-- StateValidator._change_mentioned_in_action. -/
def changeMentionedInAction (field old_val new_val action_description : String) : Bool :=
  let action_lower := pyLower action_description
  if old_val ≠ "" && strContains action_lower (pyLower old_val) then true
  else if new_val ≠ "" && strContains action_lower (pyLower new_val) then true
  else (fieldKeywords field).any (fun k => strContains action_lower k)

/-- One critical-identity-field check of _validate_player_changes: flag the
field when old and new differ (as optional dict entries) and the change is not
mentioned in the action description. -/
def criticalFieldIssue (field : String) (ov nv : Option String)
    (action_description : String) : List String :=
  if ov ≠ nv then
    let old_val := ov.getD ""
    let new_val := nv.getD ""
    if !(changeMentionedInAction field old_val new_val action_description) then
      ["Unexpected change to " ++ field ++ ": \x27" ++ old_val ++ "\x27 -> \x27" ++
        new_val ++ "\x27"]
    else []
  else []

/-- One ability-score check of _validate_player_changes. -/
def abilityIssue (ability : String) (ov nv : Int) (action_description : String) :
    List String :=
  if ov ≠ nv then
    let ability_keywords := ["boost", "enhance", "drain", "curse", "magic", "potion"]
    if !(ability_keywords.any (fun k => strContains (pyLower action_description) k)) then
      ["Unexpected " ++ ability ++ " change: " ++ toString ov ++ " -> " ++ toString nv]
    else []
  else []

/-- StateValidator._validate_player_changes. -/
def validatePlayerChanges (old_state new_state : GameState)
    (action_description : String) : List String :=
  let player_old := old_state.player.getD emptyPlayer
  let player_new := new_state.player.getD emptyPlayer
  if !(playerTruthy player_old) || !(playerTruthy player_new) then []
  else
    let critical :=
      criticalFieldIssue "Name" player_old.Name player_new.Name action_description ++
      criticalFieldIssue "Race" player_old.Race player_new.Race action_description ++
      criticalFieldIssue "Class" player_old.Class player_new.Class action_description ++
      criticalFieldIssue "Pronouns" player_old.Pronouns player_new.Pronouns action_description
    let old_level := player_old.Level.getD 1
    let new_level := player_new.Level.getD 1
    let levelIssues :=
      if old_level ≠ new_level then
        let level_keywords := ["level up", "gain level", "advance", "experience"]
        if !(level_keywords.any (fun k => strContains (pyLower action_description) k)) then
          ["Unexpected level change: " ++ toString old_level ++ " -> " ++ toString new_level]
        else []
      else []
    let old_abilities := player_old.Abilities.getD emptyAbilities
    let new_abilities := player_new.Abilities.getD emptyAbilities
    let abilityIssues :=
      abilityIssue "Strength" (old_abilities.Strength.getD 10) (new_abilities.Strength.getD 10) action_description ++
      abilityIssue "Dexterity" (old_abilities.Dexterity.getD 10) (new_abilities.Dexterity.getD 10) action_description ++
      abilityIssue "Constitution" (old_abilities.Constitution.getD 10) (new_abilities.Constitution.getD 10) action_description ++
      abilityIssue "Intelligence" (old_abilities.Intelligence.getD 10) (new_abilities.Intelligence.getD 10) action_description ++
      abilityIssue "Wisdom" (old_abilities.Wisdom.getD 10) (new_abilities.Wisdom.getD 10) action_description ++
      abilityIssue "Charisma" (old_abilities.Charisma.getD 10) (new_abilities.Charisma.getD 10) action_description
    critical ++ levelIssues ++ abilityIssues

/-- StateValidator._validate_inventory_changes. -/
def validateInventoryChanges (old_state new_state : GameState)
    (action_description : String) : List String :=
  let player_old := old_state.player.getD emptyPlayer
  let player_new := new_state.player.getD emptyPlayer
  let old_inventory := player_old.Inventory.getD []
  let new_inventory := player_new.Inventory.getD []
  let descL := pyLower action_description
  let moneyIssues := (new_inventory.filter isMoneyItem).map moneyIssue
  let dupIssues := (firstOccurrences new_inventory).foldr
    (fun item acc =>
      let new_count := new_inventory.count item
      let old_count := old_inventory.count item
      (if new_count > old_count + 1 then
        let multiple_keywords := ["multiple", "several", "many", "bunch", "stack",
          "pile", toString new_count, "two", "three", "four", "five"]
        if !(multiple_keywords.any (fun k => strContains descL k)) then
          ["Unexpected duplicate items: " ++ toString new_count ++ " copies of \x27" ++
            item ++ "\x27 (was " ++ toString old_count ++ ")"]
        else []
      else []) ++ acc) []
  let lost_items := (firstOccurrences old_inventory).filter
    (fun i => !(new_inventory.contains i))
  let lossIssues :=
    if lost_items ≠ [] then
      let loss_keywords := ["drop", "sell", "trade", "use", "consume", "break",
        "destroy", "give", "lose"]
      if !(loss_keywords.any (fun k => strContains descL k)) then
        ["Unexpected inventory loss: " ++ pyListRepr lost_items]
      else []
    else []
  let old_distinct := (firstOccurrences old_inventory).length
  let new_distinct := (firstOccurrences new_inventory).length
  let dramaticIssues :=
    if 2 * new_distinct < old_distinct ∧ old_distinct > 2 then
      ["Dramatic inventory reduction: " ++ toString old_distinct ++ " -> " ++
        toString new_distinct ++ " items"]
    else []
  moneyIssues ++ dupIssues ++ lossIssues ++ dramaticIssues

/-- Boolean set inequality of two lists viewed as sets. -/
def setNe (a b : List String) : Bool :=
  !(a.all (fun x => b.contains x) && b.all (fun x => a.contains x))

/-- StateValidator._validate_magic_changes. -/
def validateMagicChanges (old_state new_state : GameState)
    (action_description : String) : List String :=
  let player_old := old_state.player.getD emptyPlayer
  let player_new := new_state.player.getD emptyPlayer
  let old_magic := player_old.Magic.getD emptyMagic
  let new_magic := player_new.Magic.getD emptyMagic
  let descL := pyLower action_description
  let old_spells := old_magic.Spells_Known.getD []
  let new_spells := new_magic.Spells_Known.getD []
  let spellIssues :=
    if setNe old_spells new_spells then
      let magic_keywords := ["learn", "forget", "teach", "scroll", "spellbook", "level up"]
      if !(magic_keywords.any (fun k => strContains descL k)) then
        let lost_spells := (firstOccurrences old_spells).filter
          (fun s => !(new_spells.contains s))
        let gained_spells := (firstOccurrences new_spells).filter
          (fun s => !(old_spells.contains s))
        (if lost_spells ≠ [] then
          ["Unexpected spell loss: " ++ pyListRepr lost_spells] else []) ++
        (if gained_spells ≠ [] then
          ["Unexpected spell gain: " ++ pyListRepr gained_spells] else [])
      else []
    else []
  let old_cantrips := old_magic.Cantrips_Known.getD []
  let new_cantrips := new_magic.Cantrips_Known.getD []
  let cantripIssues :=
    if setNe old_cantrips new_cantrips then
      let magic_keywords := ["learn", "forget", "teach", "level up"]
      if !(magic_keywords.any (fun k => strContains descL k)) then
        ["Unexpected cantrip changes: " ++ pySetRepr old_cantrips ++ " -> " ++
          pySetRepr new_cantrips]
      else []
    else []
  spellIssues ++ cantripIssues

/-- StateValidator.validate_state_changes. -/
def validateStateChanges (old_state new_state : GameState)
    (action_description : String) : ValidationResult :=
  let issues :=
    validatePlayerChanges old_state new_state action_description ++
    validateInventoryChanges old_state new_state action_description ++
    validateMagicChanges old_state new_state action_description
  ⟨issues.length == 0, issues⟩

/-- StateValidator._clean_inventory_of_money: keep non-money items in order. -/
def cleanInventoryOfMoney (inventory : List String) : List String :=
  inventory.filter (fun item => !(isMoneyItem item))

/-- Inner loop of StateValidator._remove_excessive_duplicates: `acc` is the
`deduplicated` list built so far (appended at the end as in the source). -/
def dedupAux (old_inventory : List String) : List String → List String → List String
  | [], acc => acc
  | item :: rest, acc =>
    let old_count := old_inventory.count item
    let current_count := acc.count item
    let max_allowed := max (old_count + 1) old_count
    if current_count < max_allowed then dedupAux old_inventory rest (acc ++ [item])
    else dedupAux old_inventory rest acc

/-- StateValidator._remove_excessive_duplicates. -/
def removeExcessiveDuplicates (old_inventory new_inventory : List String) :
    List String :=
  dedupAux old_inventory new_inventory []

/-- The per-list policy of _merge_magic_defensively for Spells_Known and
Cantrips_Known: accept the candidate list only when the old SET has at most
two entries (`len(old_spells) <= 2` on the set) or the candidate is a
superset (`new_spells >= old_spells`); otherwise keep the old entry. -/
def mergeKnownSpells (o n : Option (List String)) : Option (List String) :=
  match n with
  | none => o
  | some l =>
    let old_spells := o.getD []
    if (firstOccurrences old_spells).length ≤ 2 ∨
        old_spells.all (fun s => l.contains s) then some l
    else o

/-- StateValidator._merge_magic_defensively.  The source mutates a copy of
old_magic step by step; the steps touch disjoint keys, so it is written
here as one field-wise record. -/
def mergeMagicDefensively (old_magic new_magic : Magic) : Magic :=
  { Spells_Known := mergeKnownSpells old_magic.Spells_Known new_magic.Spells_Known
    Cantrips_Known := mergeKnownSpells old_magic.Cantrips_Known new_magic.Cantrips_Known
    Spell_Slots := updField new_magic.Spell_Slots old_magic.Spell_Slots }

/-- The inventory policy of _merge_player_defensively: clean money items,
cap duplicates, and accept the result only when it is not dramatically
smaller than the old inventory.  The float comparison
`final_inv_size >= old_inv_size * 0.5` is exact on these integer sizes and is
rendered as `2 * final_inv_size ≥ old_inv_size`. -/
def mergeInventoryDefensively (oInv nInv : Option (List String)) :
    Option (List String) :=
  match nInv with
  | none => oInv
  | some new_inventory =>
    let old_inventory := oInv.getD []
    let cleaned_inventory := cleanInventoryOfMoney new_inventory
    let deduplicated_inventory :=
      removeExcessiveDuplicates old_inventory cleaned_inventory
    if 2 * deduplicated_inventory.length ≥ old_inventory.length ∨
        old_inventory.length ≤ 2 then some deduplicated_inventory
    else some old_inventory

/-- The critical-identity-field policy of _merge_player_defensively: keep the
old entry unless it is Python-falsy and the candidate value is truthy
(`if not old_player.get(field) and new_player.get(field)`), guarded by the
candidate actually carrying the key. -/
def mergeCritTruthy {α : Type} (truthy : α → Bool) (o n : Option α) : Option α :=
  match n with
  | none => o
  | some v =>
    if !((o.map truthy).getD false) && truthy v then some v else o

/-- The Level policy of _merge_player_defensively: allow increases only
(missing Level keys default to 1 in the comparison). -/
def mergeLevelDefensively (o n : Option Int) : Option Int :=
  match n with
  | none => o
  | some new_level =>
    if new_level ≥ o.getD 1 then some new_level else o

/-- The Magic policy of _merge_player_defensively: delegate to
_merge_magic_defensively with `{}` defaults for missing keys. -/
def mergeMagicField (o n : Option Magic) : Option Magic :=
  match n with
  | none => o
  | some nm => some (mergeMagicDefensively (o.getD emptyMagic) nm)

/-- StateValidator._merge_player_defensively.  The source mutates a deep copy
of old_player step by step; every step assigns a distinct key, so it is
written here as one field-wise record update built from the named
per-field policies above. -/
def mergePlayerDefensively (old_player new_player : Player) : Player :=
  { old_player with
    HP := updField new_player.HP old_player.HP
    Gold := updField new_player.Gold old_player.Gold
    Status := updField new_player.Status old_player.Status
    XP := updField new_player.XP old_player.XP
    location := updField new_player.location old_player.location
    Inventory := mergeInventoryDefensively old_player.Inventory new_player.Inventory
    Spell_Effects := updField new_player.Spell_Effects old_player.Spell_Effects
    Level := mergeLevelDefensively old_player.Level new_player.Level
    Magic := mergeMagicField old_player.Magic new_player.Magic
    Name := mergeCritTruthy (fun s => !(s == "")) old_player.Name new_player.Name
    Race := mergeCritTruthy (fun s => !(s == "")) old_player.Race new_player.Race
    Class := mergeCritTruthy (fun s => !(s == "")) old_player.Class new_player.Class
    Abilities := mergeCritTruthy abilitiesTruthy old_player.Abilities new_player.Abilities
    Proficiencies := mergeCritTruthy proficienciesTruthy
      old_player.Proficiencies new_player.Proficiencies }

/-- StateValidator.merge_states_defensively: deep copy of the old state, then
the safe top-level fields are taken from the candidate when present, and the
player object is merged defensively when both states carry one. -/
def mergeStatesDefensively (old_state new_state : GameState) : GameState :=
  { player :=
      match old_state.player, new_state.player with
      | some op, some np => some (mergePlayerDefensively op np)
      | _, _ => old_state.player
    location := updField new_state.location old_state.location
    danger := updField new_state.danger old_state.danger
    time_of_day := updField new_state.time_of_day old_state.time_of_day
    sunrise := updField new_state.sunrise old_state.sunrise
    sunset := updField new_state.sunset old_state.sunset
    date := updField new_state.date old_state.date
    dark := updField new_state.dark old_state.dark
    monsters := updField new_state.monsters old_state.monsters
    NPCs := updField new_state.NPCs old_state.NPCs }

/-- One proposed sub-action (action_schema). -/
structure PAction where
  action_type : String
  target : String
  how_to_resolve : String
  advantage : Bool
  disadvantage : Bool
  dice_to_roll : String
  number_to_beat : Int
  result_if_successful : String
  result_if_failed : String
deriving DecidableEq

/-- A two-part oracle response (response_schema). -/
structure Response where
  player_response : String
  DM_response : String
deriving DecidableEq

/-- The world-graph collaborator (LocationManager), reduced to the two
queries the core consumes: the boolean reachability test and the
formatted context string for a location (per context type). -/
structure LocMgr where
  canMoveTo : String → String → Bool
  contextFor : String → String → String

/-- The oracle collaborator: its answers to the structured requests issued
by ActionResolver.turn.  get_actions is keyed by the retry attempt (same
prompt each time); update_state is keyed by the system prompt it is sent;
the narration and death calls are each issued at most once per turn.  A
`none` from getActions models a payload lacking a well-formed action list. -/
structure Oracle where
  getActions : Nat → Option (List PAction)
  response : Response
  updateState : String → GameState
  death : GameState → Response

/-- The injected environment of one turn: the oracle, the optional location
manager, the per-action dice outcome (`Except.error` models a
d20 RollSyntaxError), the JSON serializer, and the opaque prompt-rule texts. -/
structure Env where
  oracle : Oracle
  locMgr : Option LocMgr
  dice : Nat → Except Unit Int
  dumps : GameState → String
  GAME_RULES : String
  STATE_CHANGE_RULES : String

/-- ActionResolver._roll_dice with randomness injected: `sample i` is the
total of the i-th `d20.roll` of the expression in source order. -/
def rollDice (sample : Nat → Int) (advantage disadvantage : Bool) : Int :=
  let result := sample 0
  let result1 :=
    if advantage then
      let result2 := sample 1
      if result2 > result then result2 else result
    else result
  if disadvantage then
    let result2 := sample (if advantage then 2 else 1)
    if result2 < result1 then result2 else result1
  else result1

/-- The action-proposal retry loop of ActionResolver.turn (max_retries = 3):
returns how many get_actions requests were issued and the accepted action
list, or `none` after the retries are exhausted. -/
def proposeActions (g : Nat → Option (List PAction)) :
    Nat × Option (List PAction) :=
  match g 0 with
  | some a => (1, some a)
  | none =>
    match g 1 with
    | some a => (2, some a)
    | none =>
      match g 2 with
      | some a => (3, some a)
      | none => (3, none)

/-- The narration contributed to success_message by one proposed action
(one iteration of the action loop in ActionResolver.turn).  `dice` is the
outcome of _roll_dice for this action. -/
def actionContribution (locMgr : Option LocMgr) (current_location : String)
    (dice : Except Unit Int) (action : PAction) : String :=
  let gated :=
    action.how_to_resolve == "check_map" &&
      (match locMgr with
       | some lm => !(lm.canMoveTo current_location action.target)
       | none => false)
  let failPart := if gated then action.result_if_failed ++ "\n" else ""
  let rollPart :=
    if action.dice_to_roll ≠ "" && !gated then
      match dice with
      | Except.ok roll =>
        if roll ≥ action.number_to_beat then action.result_if_successful ++ "\n"
        else action.result_if_failed ++ "\n"
      | Except.error _ => ""
    else action.result_if_successful ++ "\n"
  failPart ++ rollPart

/-- The success_message accumulated over the proposed actions, in order.
The source reads game_state[\x27location\x27] each iteration (the schema
requires the key; a missing key would raise KeyError, outside this model). -/
def successMessage (env : Env) (game_state : GameState)
    (actions : List PAction) : String :=
  (actions.enum.map (fun ia =>
    actionContribution env.locMgr (game_state.location.getD "") (env.dice ia.1) ia.2)).foldl
    (fun acc s => acc ++ s) ""

/-- ActionResolver._get_world_context, reduced to its control flow: empty
when no location manager is configured or the state has no location. -/
def getWorldContext (env : Env) (game_state : GameState)
    (context_type : String) : String :=
  match env.locMgr, game_state.location with
  | some lm, some loc => lm.contextFor context_type loc
  | _, _ => ""

/-- The base system prompt of the state-update stage (action.py lines
183-186), built from the opaque rule texts, the serialized prior state and
the DM narration, with the world context appended when nonempty. -/
def stateBasePrompt (env : Env) (game_state : GameState) (dm_response : String) :
    String :=
  let world_context := getWorldContext env game_state "dm"
  let base := env.GAME_RULES ++ "\n" ++ env.STATE_CHANGE_RULES ++
    "\nPrior State: " ++ env.dumps game_state ++ "\n" ++ dm_response
  if world_context ≠ "" then base ++ "\n\n" ++ world_context else base

/-- The feedback block appended to the prompt after a failed validation
(the previous attempt's issues joined verbatim by newlines). -/
def validationFeedback (issues : List String) : String :=
  "\n\nVALIDATION ERRORS FROM PREVIOUS ATTEMPT:\n" ++ joinSep "\n" issues ++
    "\nPlease fix these issues and preserve unchanged fields exactly."

/-- The ProposeState/Validate retry loop of ActionResolver.turn.  `fuel` is
the number of attempts remaining (max_state_retries + 1 = 3 at the start);
the last attempt accepts the candidate if valid and otherwise falls back to
the defensive merge.  Returns the list of system prompts sent to the oracle
(one per request) and the resulting new game state. -/
def stateLoop (update : String → GameState) (old_state : GameState)
    (summary base feedback : String) : Nat → List String × GameState
  | 0 => ([], old_state)
  | n + 1 =>
    let prompt := base ++ feedback
    let candidate := update prompt
    let vr := validateStateChanges old_state candidate summary
    if vr.is_valid then ([prompt], candidate)
    else if n == 0 then ([prompt], mergeStatesDefensively old_state candidate)
    else
      let rest := stateLoop update old_state summary base
        (validationFeedback vr.issues) n
      (prompt :: rest.1, rest.2)

/-- The system prompt of the i-th state-update request (i = 0, 1, 2): the
base prompt, extended on retries with the previous attempt's issues. -/
def attemptPrompt (update : String → GameState) (old_state : GameState)
    (summary base : String) : Nat → String
  | 0 => base
  | n + 1 =>
    base ++ validationFeedback
      (validateStateChanges old_state
        (update (attemptPrompt update old_state summary base n)) summary).issues

/-- The candidate state returned by the i-th state-update request. -/
def attemptCandidate (update : String → GameState) (old_state : GameState)
    (summary base : String) (n : Nat) : GameState :=
  update (attemptPrompt update old_state summary base n)

/-- Whether the i-th candidate passes validation. -/
def attemptValid (update : String → GameState) (old_state : GameState)
    (summary base : String) (n : Nat) : Bool :=
  (validateStateChanges old_state
    (attemptCandidate update old_state summary base n) summary).is_valid

/-- The accepted or merged state produced by the state-update stage of a
turn that resolved `actions`. -/
def acceptedState (env : Env) (game_state : GameState)
    (actions : List PAction) : GameState :=
  (stateLoop env.oracle.updateState game_state
    (successMessage env game_state actions)
    (stateBasePrompt env game_state env.oracle.response.DM_response) "" 3).2

/-- The death test of ActionResolver.turn: the new state has a player dict
with an HP key whose value is ≤ 0. -/
def playerDead (new_game_state : GameState) : Bool :=
  match new_game_state.player with
  | some p =>
    match p.HP with
    | some hp => decide (hp ≤ 0)
    | none => false
  | none => false

/-- Python dict.update on the session game state: keys of the new state
overwrite, keys absent from it keep their prior values. -/
def dictUpdate (old_state new_state : GameState) : GameState :=
  { player := updField new_state.player old_state.player
    location := updField new_state.location old_state.location
    danger := updField new_state.danger old_state.danger
    time_of_day := updField new_state.time_of_day old_state.time_of_day
    sunrise := updField new_state.sunrise old_state.sunrise
    sunset := updField new_state.sunset old_state.sunset
    date := updField new_state.date old_state.date
    dark := updField new_state.dark old_state.dark
    monsters := updField new_state.monsters old_state.monsters
    NPCs := updField new_state.NPCs old_state.NPCs }

/-- The outcome of one turn: the string shown to the player, and the session
game state and context log after the in-place mutations. -/
structure TurnResult where
  output : String
  state : GameState
  ctx : List (String × String)
deriving DecidableEq

/-- The user-facing apology returned when the action-proposal retries are
exhausted. -/
def apologyMessage : String :=
  "I\x27m having trouble processing that action. Please try again."

/-- ActionResolver.turn: the full turn pipeline with the oracle, world graph
and dice injected through `env`.  In-place mutation of the session state and
context log is modelled by returning their new values. -/
def turn (env : Env) (command : String) (game_state : GameState)
    (context : List (String × String)) : TurnResult :=
  match (proposeActions env.oracle.getActions).2 with
  | none => ⟨apologyMessage, game_state, context⟩
  | some actions =>
    let new_game_state := acceptedState env game_state actions
    if playerDead new_game_state then
      ⟨(env.oracle.death new_game_state).player_response, game_state, context⟩
    else
      ⟨env.oracle.response.player_response,
       dictUpdate game_state new_game_state,
       context ++ [(command, env.oracle.response.player_response)]⟩

theorem updField_self {α : Type} (a : Option α) : updField a a = a := by
  cases a <;> rfl

theorem updField_absorb {α : Type} (a b : Option α) :
    updField (updField a b) b = updField a b := by
  cases a <;> cases b <;> rfl

theorem str_append_empty (s : String) : s ++ "" = s := by
  cases s with
  | mk data =>
    show String.mk (data ++ []) = String.mk data
    rw [List.append_nil]

theorem cleanInventoryOfMoney_of_noMoney (inv : List String)
    (h : ∀ i ∈ inv, isMoneyItem i = false) :
    cleanInventoryOfMoney inv = inv := by
  unfold cleanInventoryOfMoney
  rw [List.filter_eq_self]
  intro a ha
  simp [h a ha]

theorem dedupAux_all_kept (l : List String) :
    ∀ (rest acc : List String),
      (∀ x, acc.count x + rest.count x ≤ l.count x) →
      dedupAux l rest acc = acc ++ rest := by
  intro rest
  induction rest with
  | nil => intro acc _; simp [dedupAux]
  | cons item tail ih =>
    intro acc hcount
    have hlt : acc.count item < max (l.count item + 1) (l.count item) := by
      have := hcount item
      simp [List.count_cons] at this
      omega
    unfold dedupAux
    rw [if_pos hlt, ih]
    · simp
    · intro x
      have := hcount x
      simp [List.count_append, List.count_cons] at *
      omega

theorem removeExcessiveDuplicates_self (l : List String) :
    removeExcessiveDuplicates l l = l := by
  unfold removeExcessiveDuplicates
  rw [dedupAux_all_kept l l []]
  · simp
  · intro x; simp

theorem mergeKnownSpells_self (o : Option (List String)) :
    mergeKnownSpells o o = o := by
  cases o with
  | none => rfl
  | some l =>
    have hsub : (l.all fun s => l.contains s) = true := by
      simp [List.all_eq_true]
    simp [mergeKnownSpells, hsub]

theorem mergeMagicDefensively_self (m : Magic) :
    mergeMagicDefensively m m = m := by
  unfold mergeMagicDefensively
  rw [mergeKnownSpells_self, mergeKnownSpells_self, updField_self]

theorem mergeCritTruthy_self {α : Type} (truthy : α → Bool) (o : Option α) :
    mergeCritTruthy truthy o o = o := by
  cases o with
  | none => rfl
  | some v =>
    unfold mergeCritTruthy
    cases h : truthy v <;> simp [h]

theorem mergeLevelDefensively_self (o : Option Int) :
    mergeLevelDefensively o o = o := by
  cases o with
  | none => rfl
  | some l => simp [mergeLevelDefensively]

theorem mergeMagicField_self (o : Option Magic) : mergeMagicField o o = o := by
  cases o with
  | none => rfl
  | some m =>
    unfold mergeMagicField
    simp [mergeMagicDefensively_self]

theorem mergeInventoryDefensively_self (o : Option (List String))
    (h : ∀ i ∈ o.getD [], isMoneyItem i = false) :
    mergeInventoryDefensively o o = o := by
  cases o with
  | none => rfl
  | some inv =>
    unfold mergeInventoryDefensively
    simp only [Option.getD_some] at h ⊢
    rw [cleanInventoryOfMoney_of_noMoney inv h, removeExcessiveDuplicates_self,
      if_pos (Or.inl (by omega))]

theorem mergePlayerDefensively_self (p : Player)
    (h : ∀ i ∈ p.Inventory.getD [], isMoneyItem i = false) :
    mergePlayerDefensively p p = p := by
  unfold mergePlayerDefensively
  rw [updField_self, updField_self, updField_self, updField_self, updField_self,
    updField_self, mergeInventoryDefensively_self _ h, mergeLevelDefensively_self,
    mergeMagicField_self, mergeCritTruthy_self, mergeCritTruthy_self,
    mergeCritTruthy_self, mergeCritTruthy_self, mergeCritTruthy_self]

/-- Whether a game state's player inventory is free of currency-matching
entries (vacuously true when the player or inventory key is absent). -/
def noMoneyInInventory (s : GameState) : Bool :=
  match s.player with
  | none => true
  | some p => (p.Inventory.getD []).all (fun i => !(isMoneyItem i))

/-- C1 (amended): Defensive Merge is idempotent on every game state whose
player inventory contains no currency-matching entry: merging a candidate
equal to the old state returns the old state unchanged. -/
theorem merge_defensively_idempotent_no_money (s : GameState)
    (h : noMoneyInInventory s = true) :
    mergeStatesDefensively s s = s := by
  obtain ⟨pl, loc, dan, tod, sr, ss, dt, dk, mo, np⟩ := s
  unfold mergeStatesDefensively
  rw [updField_self, updField_self, updField_self, updField_self, updField_self,
    updField_self, updField_self, updField_self, updField_self]
  cases pl with
  | none => rfl
  | some op =>
    have hm : ∀ i ∈ op.Inventory.getD [], isMoneyItem i = false := by
      intro i hi
      unfold noMoneyInInventory at h
      simp [List.all_eq_true] at h
      simpa using h i hi
    show GameState.mk (some (mergePlayerDefensively op op)) loc dan tod sr ss dt dk mo np =
      GameState.mk (some op) loc dan tod sr ss dt dk mo np
    rw [mergePlayerDefensively_self op hm]

def samplePlayer : Player :=
  { emptyPlayer with
    Name := some "Aria"
    HP := some 10
    Gold := some 5
    Inventory := some ["Torch", "Rope"] }

def sampleState : GameState :=
  ⟨some samplePlayer, some "Town", some "safe", some "noon", some "6am",
   some "6pm", some "Day 1", some false, some [], some []⟩

def moneyState : GameState :=
  { sampleState with
    player := some { samplePlayer with Inventory := some ["10 gold pieces"] } }

/-- C1 (counterexample): Defensive Merge is not idempotent on every state:
on a state whose inventory holds a currency item, merging the state with
itself strips the item, so the result differs from the input. -/
theorem merge_defensively_not_idempotent : mergeStatesDefensively moneyState moneyState ≠ moneyState := by
  decide

/-- Witness for C1 (amended): a concrete money-free state satisfies the
hypothesis and self-merges to itself. -/
theorem merge_defensively_idempotent_no_money_witness : noMoneyInInventory sampleState = true ∧ mergeStatesDefensively sampleState sampleState = sampleState :=
  ⟨by decide, merge_defensively_idempotent_no_money sampleState (by decide)⟩

/-- C6: in the defensive merge, when the candidate player carries a Level
key the merged Level is the candidate Level if it is at least the old Level
(missing levels defaulting to 1) and the old entry otherwise; and the
merged Level (with the same default) never decreases. -/
theorem merged_level_monotone :
    (∀ (o n : Player) (nl : Int), n.Level = some nl →
      (mergePlayerDefensively o n).Level =
        if nl ≥ o.Level.getD 1 then some nl else o.Level) ∧
    (∀ o n : Player, o.Level.getD 1 ≤ (mergePlayerDefensively o n).Level.getD 1) := by
  constructor
  · intro o n nl h
    show mergeLevelDefensively o.Level n.Level = _
    rw [h]
    rfl
  · intro o n
    show o.Level.getD 1 ≤ (mergeLevelDefensively o.Level n.Level).getD 1
    cases hn : n.Level with
    | none => simp [mergeLevelDefensively]
    | some nl =>
      show o.Level.getD 1 ≤
        ((if nl ≥ o.Level.getD 1 then some nl else o.Level).getD 1)
      by_cases hc : nl ≥ o.Level.getD 1
      · rw [if_pos hc]
        simpa using hc
      · rw [if_neg hc]

def lowLevelPlayer : Player := { emptyPlayer with Level := some 3 }

def highLevelPlayer : Player := { emptyPlayer with Level := some 5 }

/-- Witness for C6: a concrete Level 3 to Level 5 merge takes the candidate
Level, and the monotonicity bound holds there. -/
theorem merged_level_monotone_witness : (mergePlayerDefensively lowLevelPlayer highLevelPlayer).Level = some 5 ∧ lowLevelPlayer.Level.getD 1 ≤ (mergePlayerDefensively lowLevelPlayer highLevelPlayer).Level.getD 1 := by
  constructor
  · rw [merged_level_monotone.1 lowLevelPlayer highLevelPlayer 5 rfl]
    decide
  · exact merged_level_monotone.2 lowLevelPlayer highLevelPlayer

/-- C9: _roll_dice with advantage only is the larger of two independent
evaluations, with disadvantage only the smaller of two, and with neither a
single evaluation. -/
theorem roll_dice_advantage_semantics (sample : Nat → Int) :
    rollDice sample true false = max (sample 0) (sample 1) ∧
    rollDice sample false true = min (sample 0) (sample 1) ∧
    rollDice sample false false = sample 0 := by
  refine ⟨?_, ?_, rfl⟩
  · rcases le_or_lt (sample 1) (sample 0) with h | h
    · have hr : rollDice sample true false = sample 0 := by
        simp [rollDice, not_lt.mpr h]
      rw [hr, max_eq_left h]
    · have hr : rollDice sample true false = sample 1 := by
        simp [rollDice, h]
      rw [hr, max_eq_right h.le]
  · rcases lt_trichotomy (sample 1) (sample 0) with h | h | h
    · have hr : rollDice sample false true = sample 1 := by
        simp [rollDice, h]
      rw [hr, min_eq_right h.le]
    · have hr : rollDice sample false true = sample 0 := by
        simp [rollDice, h]
      rw [hr, min_eq_left (le_of_eq h.symm)]
    · have hr : rollDice sample false true = sample 0 := by
        simp [rollDice, not_lt.mpr h.le]
      rw [hr, min_eq_left h.le]

def unreachableLocMgr : LocMgr := ⟨fun _ _ => false, fun _ _ => ""⟩

def gateActionNoDice : PAction :=
  ⟨"move", "Cave", "check_map", false, false, "", 10,
   "You arrive.", "You cannot go there."⟩

def gateActionDice : PAction := { gateActionNoDice with dice_to_roll := "1d20" }

/-- C2: a check_map action whose target the world graph reports unreachable
contributes its failure narration AND then also its success narration to the
resolution summary (the automatic-resolution else-branch still runs for a
gated action), both with an empty and with a non-empty dice expression —
the code does not contribute only the failure narration as specified. -/
theorem check_map_unreachable_adds_success_too :
    actionContribution (some unreachableLocMgr) "Town" (Except.ok 10) gateActionNoDice =
      "You cannot go there.\nYou arrive.\n" ∧
    actionContribution (some unreachableLocMgr) "Town" (Except.ok 10) gateActionDice =
      "You cannot go there.\nYou arrive.\n" := by
  constructor <;> decide

/-- C3: whenever the candidate state's player inventory holds an entry that
matches the currency keyword list, validate_state_changes is invalid and its
issue list contains the money issue naming that entry, for every old state
and action summary. -/
theorem validator_flags_money_item (old_state new_state : GameState)
    (desc : String) (p : Player) (inv : List String) (item : String)
    (hp : new_state.player = some p) (hi : p.Inventory = some inv)
    (hm : item ∈ inv) (hk : isMoneyItem item = true) :
    (validateStateChanges old_state new_state desc).is_valid = false ∧
    moneyIssue item ∈ (validateStateChanges old_state new_state desc).issues := by
  have hB : moneyIssue item ∈ validateInventoryChanges old_state new_state desc := by
    unfold validateInventoryChanges
    apply List.mem_append_left
    apply List.mem_append_left
    apply List.mem_append_left
    rw [hp]
    simp only [Option.getD_some, hi]
    exact List.mem_map_of_mem _ (List.mem_filter.mpr ⟨hm, hk⟩)
  have hmem : moneyIssue item ∈ (validateStateChanges old_state new_state desc).issues := by
    show moneyIssue item ∈
      validatePlayerChanges old_state new_state desc ++
      validateInventoryChanges old_state new_state desc ++
      validateMagicChanges old_state new_state desc
    exact List.mem_append_left _ (List.mem_append_right _ hB)
  refine ⟨?_, hmem⟩
  have hne : (validateStateChanges old_state new_state desc).issues ≠ [] :=
    List.ne_nil_of_mem hmem
  show ((validateStateChanges old_state new_state desc).issues.length == 0) = false
  have hlen : (validateStateChanges old_state new_state desc).issues.length ≠ 0 := by
    intro h0
    exact hne (List.eq_nil_of_length_eq_zero h0)
  simpa using hlen

def goldCandidateState : GameState :=
  { sampleState with
    player := some { emptyPlayer with Inventory := some ["10 gold pieces"] } }

def emptyInventoryState : GameState :=
  { sampleState with player := some { emptyPlayer with Inventory := some [] } }

/-- Witness for C3: with old inventory [] and candidate inventory
[10 gold pieces], the validator is invalid and names the money item. -/
theorem validator_flags_money_item_witness : (validateStateChanges emptyInventoryState goldCandidateState "The player searches the room").is_valid = false ∧ moneyIssue "10 gold pieces" ∈ (validateStateChanges emptyInventoryState goldCandidateState "The player searches the room").issues :=
  validator_flags_money_item emptyInventoryState goldCandidateState
    "The player searches the room" _ _ "10 gold pieces" rfl rfl
    (by decide) (by decide)

/-- C5: when every action-proposal attempt lacks a well-formed action list,
the stage has issued exactly 3 requests and the turn returns the apology
with the game state and context log unchanged. -/
theorem action_proposal_retry_exhaustion (env : Env) (command : String)
    (gs : GameState) (ctx : List (String × String))
    (h0 : env.oracle.getActions 0 = none) (h1 : env.oracle.getActions 1 = none)
    (h2 : env.oracle.getActions 2 = none) :
    (proposeActions env.oracle.getActions).1 = 3 ∧
    turn env command gs ctx = ⟨apologyMessage, gs, ctx⟩ := by
  have hp : proposeActions env.oracle.getActions = (3, none) := by
    unfold proposeActions
    rw [h0, h1, h2]
  constructor
  · rw [hp]
  · unfold turn
    rw [hp]

def emptyResponse : Response := ⟨"", ""⟩

def envNoActions : Env :=
  { oracle := ⟨fun _ => none, emptyResponse, fun _ => sampleState, fun _ => emptyResponse⟩
    locMgr := none
    dice := fun _ => Except.error ()
    dumps := fun _ => ""
    GAME_RULES := ""
    STATE_CHANGE_RULES := "" }

/-- Witness for C5: a concrete oracle that never returns an action list. -/
theorem action_proposal_retry_exhaustion_witness : (proposeActions envNoActions.oracle.getActions).1 = 3 ∧ turn envNoActions "look around" sampleState [] = ⟨apologyMessage, sampleState, []⟩ :=
  action_proposal_retry_exhaustion envNoActions "look around" sampleState []
    rfl rfl rfl

/-- C7: on a turn whose accepted or merged state has player HP ≤ 0, turn
returns the oracle's death narration and leaves the context log length
unchanged. -/
theorem death_returns_narration_context_unchanged (env : Env) (command : String)
    (gs : GameState) (ctx : List (String × String)) (actions : List PAction)
    (ha : (proposeActions env.oracle.getActions).2 = some actions)
    (hd : playerDead (acceptedState env gs actions) = true) :
    (turn env command gs ctx).output =
      (env.oracle.death (acceptedState env gs actions)).player_response ∧
    (turn env command gs ctx).ctx.length = ctx.length := by
  unfold turn
  rw [ha]
  simp [hd]

/-- C10: on the death path the commit step is skipped entirely, so the
session game state after the turn is exactly the state before it — the
accepted/merged state is discarded. -/
theorem death_skips_state_commit (env : Env) (command : String)
    (gs : GameState) (ctx : List (String × String)) (actions : List PAction)
    (ha : (proposeActions env.oracle.getActions).2 = some actions)
    (hd : playerDead (acceptedState env gs actions) = true) :
    (turn env command gs ctx).state = gs := by
  unfold turn
  rw [ha]
  simp [hd]

def deathCandidate : GameState :=
  { sampleState with player := some { samplePlayer with HP := some 0 } }

def envDeath : Env :=
  { oracle := ⟨fun _ => some [], ⟨"resp", "dm notes"⟩, fun _ => deathCandidate,
      fun _ => ⟨"You have died.", "dm death"⟩⟩
    locMgr := none
    dice := fun _ => Except.error ()
    dumps := fun _ => ""
    GAME_RULES := ""
    STATE_CHANGE_RULES := "" }

/-- Witness for C7: a concrete turn whose accepted state has HP 0. -/
theorem death_returns_narration_context_unchanged_witness : (turn envDeath "charge the dragon" sampleState []).output = (envDeath.oracle.death (acceptedState envDeath sampleState [])).player_response ∧ (turn envDeath "charge the dragon" sampleState []).ctx.length = ([] : List (String × String)).length :=
  death_returns_narration_context_unchanged envDeath "charge the dragon"
    sampleState [] [] rfl (by decide)

/-- Witness for C10: the same concrete death turn leaves the session state
untouched. -/
theorem death_skips_state_commit_witness : (turn envDeath "charge the dragon" sampleState []).state = sampleState :=
  death_skips_state_commit envDeath "charge the dragon" sampleState [] []
    rfl (by decide)

/-- C8 (amended): on a non-death turn the commit step appends exactly one
(command, player narration) pair to the context log and applies the
accepted/merged state to the session state with Python dict.update
semantics: fields present in the accepted/merged state take its values,
fields absent from it keep their prior values. -/
theorem commit_appends_pair_and_dict_updates (env : Env) (command : String)
    (gs : GameState) (ctx : List (String × String)) (actions : List PAction)
    (ha : (proposeActions env.oracle.getActions).2 = some actions)
    (hd : playerDead (acceptedState env gs actions) = false) :
    turn env command gs ctx =
      ⟨env.oracle.response.player_response,
       dictUpdate gs (acceptedState env gs actions),
       ctx ++ [(command, env.oracle.response.player_response)]⟩ := by
  unfold turn
  rw [ha]
  simp [hd]

def staleCandidate : GameState := { sampleState with dark := none }

def envStale : Env :=
  { oracle := ⟨fun _ => some [], ⟨"resp", "dm notes"⟩, fun _ => staleCandidate,
      fun _ => emptyResponse⟩
    locMgr := none
    dice := fun _ => Except.error ()
    dumps := fun _ => ""
    GAME_RULES := ""
    STATE_CHANGE_RULES := "" }

/-- C8 (counterexample): the committed state is not the accepted/merged
state on every top-level field: the candidate here is accepted by the
validator and lacks the dark field, yet the committed session state still
carries the prior dark value, so commit differs from overwrite. -/
theorem commit_keeps_fields_absent_from_accepted : acceptedState envStale sampleState [] = staleCandidate ∧ staleCandidate.dark = none ∧ (turn envStale "wait" sampleState []).state.dark = some false ∧ (turn envStale "wait" sampleState []).state ≠ acceptedState envStale sampleState [] := by
  refine ⟨by decide, rfl, by decide, by decide⟩

/-- Witness for C8 (amended): the concrete non-death turn commits the
dict-update of the prior state with the accepted candidate and appends one
context pair. -/
theorem commit_appends_pair_and_dict_updates_witness : turn envStale "wait" sampleState [] = ⟨envStale.oracle.response.player_response, dictUpdate sampleState (acceptedState envStale sampleState []), [] ++ [("wait", envStale.oracle.response.player_response)]⟩ :=
  commit_appends_pair_and_dict_updates envStale "wait" sampleState [] []
    rfl (by decide)

theorem stateLoop_succ (u : String → GameState) (old_state : GameState)
    (summary base feedback : String) (n : Nat) :
    stateLoop u old_state summary base feedback (n + 1) =
      (let prompt := base ++ feedback
       let candidate := u prompt
       let vr := validateStateChanges old_state candidate summary
       if vr.is_valid then ([prompt], candidate)
       else if n == 0 then ([prompt], mergeStatesDefensively old_state candidate)
       else
         let rest := stateLoop u old_state summary base (validationFeedback vr.issues) n
         (prompt :: rest.1, rest.2)) := rfl

theorem stateLoop_invalid_step (u : String → GameState) (old_state : GameState)
    (summary base feedback : String) (n : Nat) (hn : (n == 0) = false)
    (hval : (validateStateChanges old_state (u (base ++ feedback)) summary).is_valid = false) :
    stateLoop u old_state summary base feedback (n + 1) =
      ((base ++ feedback) ::
        (stateLoop u old_state summary base
          (validationFeedback (validateStateChanges old_state (u (base ++ feedback)) summary).issues) n).1,
       (stateLoop u old_state summary base
          (validationFeedback (validateStateChanges old_state (u (base ++ feedback)) summary).issues) n).2) := by
  rw [stateLoop_succ]
  simp only [hval, hn, Bool.false_eq_true, if_false]

theorem stateLoop_invalid_last (u : String → GameState) (old_state : GameState)
    (summary base feedback : String)
    (hval : (validateStateChanges old_state (u (base ++ feedback)) summary).is_valid = false) :
    stateLoop u old_state summary base feedback 1 =
      ([base ++ feedback],
       mergeStatesDefensively old_state (u (base ++ feedback))) := by
  rw [show (1 : Nat) = 0 + 1 from rfl, stateLoop_succ]
  simp only [hval, Bool.false_eq_true, if_false]
  rfl

theorem stateLoop_length_le (u : String → GameState) (old_state : GameState)
    (summary base : String) :
    ∀ (feedback : String) (n : Nat),
      (stateLoop u old_state summary base feedback n).1.length ≤ n := by
  intro feedback n
  induction n generalizing feedback with
  | zero => simp [stateLoop]
  | succ m ih =>
    rw [stateLoop_succ]
    by_cases hv : (validateStateChanges old_state (u (base ++ feedback)) summary).is_valid = true
    · simp [hv]
    · simp only [Bool.not_eq_true] at hv
      by_cases hm : (m == 0) = true
      · simp [hv, hm]
      · simp only [Bool.not_eq_true] at hm
        simp only [hv, hm, Bool.false_eq_true, if_false]
        have := ih (validationFeedback
          (validateStateChanges old_state (u (base ++ feedback)) summary).issues)
        simpa using Nat.succ_le_succ this

theorem stateLoop_invalid_step3 (u : String → GameState) (old_state : GameState)
    (summary base feedback : String)
    (hval : (validateStateChanges old_state (u (base ++ feedback)) summary).is_valid = false) :
    stateLoop u old_state summary base feedback 3 =
      ((base ++ feedback) ::
        (stateLoop u old_state summary base
          (validationFeedback (validateStateChanges old_state (u (base ++ feedback)) summary).issues) 2).1,
       (stateLoop u old_state summary base
          (validationFeedback (validateStateChanges old_state (u (base ++ feedback)) summary).issues) 2).2) :=
  stateLoop_invalid_step u old_state summary base feedback 2 rfl hval

theorem stateLoop_invalid_step2 (u : String → GameState) (old_state : GameState)
    (summary base feedback : String)
    (hval : (validateStateChanges old_state (u (base ++ feedback)) summary).is_valid = false) :
    stateLoop u old_state summary base feedback 2 =
      ((base ++ feedback) ::
        (stateLoop u old_state summary base
          (validationFeedback (validateStateChanges old_state (u (base ++ feedback)) summary).issues) 1).1,
       (stateLoop u old_state summary base
          (validationFeedback (validateStateChanges old_state (u (base ++ feedback)) summary).issues) 1).2) :=
  stateLoop_invalid_step u old_state summary base feedback 1 rfl hval

theorem stateLoop_all_invalid (u : String → GameState) (old_state : GameState)
    (summary base : String)
    (h0 : attemptValid u old_state summary base 0 = false)
    (h1 : attemptValid u old_state summary base 1 = false)
    (h2 : attemptValid u old_state summary base 2 = false) :
    stateLoop u old_state summary base "" 3 =
      ([attemptPrompt u old_state summary base 0,
        attemptPrompt u old_state summary base 1,
        attemptPrompt u old_state summary base 2],
       mergeStatesDefensively old_state (attemptCandidate u old_state summary base 2)) := by
  have e0 : base ++ "" = base := str_append_empty base
  have h0' : (validateStateChanges old_state (u (base ++ "")) summary).is_valid = false := by
    rw [e0]
    exact h0
  have s3 := stateLoop_invalid_step3 u old_state summary base "" h0'
  rw [e0] at s3
  have h1' : (validateStateChanges old_state
      (u (base ++ validationFeedback
        (validateStateChanges old_state (u base) summary).issues)) summary).is_valid = false := h1
  have s2 := stateLoop_invalid_step2 u old_state summary base
    (validationFeedback (validateStateChanges old_state (u base) summary).issues) h1'
  have h2' : (validateStateChanges old_state
      (u (base ++ validationFeedback
        (validateStateChanges old_state
          (u (base ++ validationFeedback
            (validateStateChanges old_state (u base) summary).issues)) summary).issues)) summary).is_valid = false := h2
  have s1 := stateLoop_invalid_last u old_state summary base
    (validationFeedback
      (validateStateChanges old_state
        (u (base ++ validationFeedback
          (validateStateChanges old_state (u base) summary).issues)) summary).issues) h2'
  rw [s3, s2, s1]
  rfl

theorem dictUpdate_mergeStatesDefensively (old_state cand : GameState) :
    dictUpdate old_state (mergeStatesDefensively old_state cand) =
      mergeStatesDefensively old_state cand := by
  unfold dictUpdate mergeStatesDefensively
  rw [updField_absorb, updField_absorb, updField_absorb, updField_absorb,
    updField_absorb, updField_absorb, updField_absorb, updField_absorb,
    updField_absorb]
  congr 1
  cases old_state.player <;> cases cand.player <;> simp [updField]

/-- C4: the ProposeState/Validate loop issues at most 1 + 2 = 3 candidate
requests; when every attempt fails validation, the prompts sent are the base
prompt and then the base prompt extended verbatim with the previous
attempt's validation issues, the stage result is the defensive merge of the
old state with the final candidate, and that merged state (not the
candidate) is what a non-death turn commits. -/
theorem state_retry_loop_bounded_and_merge_fallback (env : Env)
    (command : String) (gs : GameState) (ctx : List (String × String))
    (actions : List PAction) :
    (stateLoop env.oracle.updateState gs (successMessage env gs actions)
      (stateBasePrompt env gs env.oracle.response.DM_response) "" 3).1.length ≤ 3 ∧
    (attemptValid env.oracle.updateState gs (successMessage env gs actions)
        (stateBasePrompt env gs env.oracle.response.DM_response) 0 = false →
     attemptValid env.oracle.updateState gs (successMessage env gs actions)
        (stateBasePrompt env gs env.oracle.response.DM_response) 1 = false →
     attemptValid env.oracle.updateState gs (successMessage env gs actions)
        (stateBasePrompt env gs env.oracle.response.DM_response) 2 = false →
     (stateLoop env.oracle.updateState gs (successMessage env gs actions)
        (stateBasePrompt env gs env.oracle.response.DM_response) "" 3).1 =
       [attemptPrompt env.oracle.updateState gs (successMessage env gs actions)
          (stateBasePrompt env gs env.oracle.response.DM_response) 0,
        attemptPrompt env.oracle.updateState gs (successMessage env gs actions)
          (stateBasePrompt env gs env.oracle.response.DM_response) 1,
        attemptPrompt env.oracle.updateState gs (successMessage env gs actions)
          (stateBasePrompt env gs env.oracle.response.DM_response) 2] ∧
     acceptedState env gs actions =
       mergeStatesDefensively gs
         (attemptCandidate env.oracle.updateState gs (successMessage env gs actions)
           (stateBasePrompt env gs env.oracle.response.DM_response) 2) ∧
     ((proposeActions env.oracle.getActions).2 = some actions →
      playerDead (acceptedState env gs actions) = false →
      (turn env command gs ctx).state =
        mergeStatesDefensively gs
          (attemptCandidate env.oracle.updateState gs (successMessage env gs actions)
            (stateBasePrompt env gs env.oracle.response.DM_response) 2))) := by
  constructor
  · exact stateLoop_length_le _ _ _ _ _ 3
  · intro h0 h1 h2
    have hall := stateLoop_all_invalid env.oracle.updateState gs
      (successMessage env gs actions)
      (stateBasePrompt env gs env.oracle.response.DM_response) h0 h1 h2
    have hacc : acceptedState env gs actions =
        mergeStatesDefensively gs
          (attemptCandidate env.oracle.updateState gs (successMessage env gs actions)
            (stateBasePrompt env gs env.oracle.response.DM_response) 2) := by
      show (stateLoop env.oracle.updateState gs (successMessage env gs actions)
        (stateBasePrompt env gs env.oracle.response.DM_response) "" 3).2 = _
      rw [hall]
    refine ⟨?_, hacc, ?_⟩
    · rw [hall]
    · intro ha hd
      unfold turn
      rw [ha]
      simp only [hd, Bool.false_eq_true, if_false]
      show dictUpdate gs (acceptedState env gs actions) = _
      rw [hacc, dictUpdate_mergeStatesDefensively]

def renameCandidate : GameState :=
  { sampleState with player := some { samplePlayer with Name := some "Kira" } }

def envRename : Env :=
  { oracle := ⟨fun _ => some [], ⟨"resp", "dm notes"⟩, fun _ => renameCandidate,
      fun _ => emptyResponse⟩
    locMgr := none
    dice := fun _ => Except.error ()
    dumps := fun _ => ""
    GAME_RULES := ""
    STATE_CHANGE_RULES := "" }

/-- Witness for C4: a concrete oracle that always proposes an unexplained
rename fails validation on all three attempts, and the turn commits the
defensive merge of the old state with the final candidate. -/
theorem state_retry_loop_bounded_and_merge_fallback_witness : attemptValid envRename.oracle.updateState sampleState (successMessage envRename sampleState []) (stateBasePrompt envRename sampleState envRename.oracle.response.DM_response) 0 = false ∧ acceptedState envRename sampleState [] = mergeStatesDefensively sampleState renameCandidate ∧ (turn envRename "call me Kira now" sampleState []).state = mergeStatesDefensively sampleState renameCandidate := by
  have h := (state_retry_loop_bounded_and_merge_fallback envRename
    "call me Kira now" sampleState [] []).2 (by decide) (by decide) (by decide)
  exact ⟨by decide, h.2.1, h.2.2 rfl (by decide)⟩
